import Mathlib

/-!
Verification of the EmailSummarizer extraction core against its
natural-language specification.

The definitions below are a shallow embedding of the Python sources under
`src/`:
  - `src/processors/text_extractor.py`   (PDFTextExtractor, TextCleaner)
  - `src/processors/email_parser.py`     (EmailParser)
  - `src/processors/native_msg_parser.py` (NativeMsgParser)
  - `src/processors/email_file_processor.py` (EmailFileProcessor)

Python strings are modelled as `List Char` (sequences of Unicode code
points) wrapped into Lean `String` at the interfaces; byte buffers are
`List Nat` with entries in 0..255.  Thread scheduling nondeterminism is
modelled by an explicit task-completion order (a list of task indices);
fallible operations are modelled with `Option`/`Except` parameters.
-/

namespace EmailSummarizer

/-- Character set stripped by Python `str.strip()` and matched by `\s` in
Python regular expressions over `str` (the Unicode whitespace set used by
CPython's `Py_UNICODE_ISSPACE`). -/
def pyIsSpace (c : Char) : Bool :=
  let n := c.toNat
  (9 ≤ n && n ≤ 13) || (28 ≤ n && n ≤ 31) || n == 32 || n == 0x85 || n == 0xA0 ||
  n == 0x1680 || (0x2000 ≤ n && n ≤ 0x200A) || n == 0x2028 || n == 0x2029 ||
  n == 0x202F || n == 0x205F || n == 0x3000

/-- Python `str.strip()` on a code-point list. -/
def pyStripL (l : List Char) : List Char :=
  ((l.dropWhile pyIsSpace).reverse.dropWhile pyIsSpace).reverse

/-- Python `str.lower()` restricted to ASCII letters (every case-insensitive
comparison in the sources is over ASCII header labels). -/
def lowerC (c : Char) : Char :=
  if 'A' ≤ c ∧ c ≤ 'Z' then Char.ofNat (c.toNat + 32) else c

/-- Case-insensitive character equality (ASCII). -/
def ciEqC (a b : Char) : Bool := lowerC a == lowerC b

/-- Does `pat` occur at the head of `t`, case-insensitively? -/
def ciLeads : List Char → List Char → Bool
  | [], _ => true
  | _ :: _, [] => false
  | p :: ps, c :: cs => ciEqC p c && ciLeads ps cs

/-- Does `pat` occur at the head of `t` (case-sensitive)?  Python
`str.startswith`. -/
def csLeads : List Char → List Char → Bool
  | [], _ => true
  | _ :: _, [] => false
  | p :: ps, c :: cs => (p == c) && csLeads ps cs

/-- Does `pat` occur anywhere in `t`, case-insensitively?  Python
`pat in s.lower()` for a lowercase `pat`. -/
def ciContains (pat : List Char) : List Char → Bool
  | [] => ciLeads pat []
  | c :: cs => ciLeads pat (c :: cs) || ciContains pat cs

/-- Python `s.split("\n")` on a code-point list. -/
def splitNl (l : List Char) : List (List Char) :=
  match l with
  | [] => [[]]
  | c :: cs =>
    let rest := splitNl cs
    if c = '\n' then [] :: rest
    else match rest with
         | [] => [[c]]
         | r :: rs => (c :: r) :: rs

/-- Python `"\n".join(...)` on code-point lists. -/
def joinNl : List (List Char) → List Char
  | [] => []
  | [l] => l
  | l :: ls => l ++ '\n' :: joinNl ls

/-! ## PDFTextExtractor._extract_pages_parallel (text_extractor.py lines 65-96)

A PDF page is modelled by the outcome of `page.extract_text()`:
`some t` when the call returns text `t`, `none` when it raises.  The
thread pool's nondeterminism is modelled by the task-completion order, a
list of page indices in the order `as_completed` yields their futures;
any worker count corresponds to some such order. -/

/-- Source `PDFTextExtractor._extract_single_page`: returns
`page.extract_text() + "\n"`, or `""` when the extraction raises (the
`except` branch, lines 90-96).  The collector's own `except` branch
(lines 84-86) likewise stores `""`, so both failure paths coincide. -/
def extract_single_page (page : Option String) : String :=
  match page with
  | some t => t ++ "\n"
  | none => ""

/-- The `page_texts` buffer after the `as_completed` loop: starting from
`[""] * len(pages)` (line 77), each completed future writes its result
into its pre-assigned slot `page_texts[page_index]` (line 82). -/
def pageWrites (pages : List (Option String)) (order : List Nat)
    (buf : List String) : List String :=
  order.foldl (fun b i => b.set i (extract_single_page (pages.getD i none))) buf

/-- Source `PDFTextExtractor._extract_pages_parallel` (lines 65-88) for a
given task-completion order: fill the pre-sized buffer, then
`"\n".join(page_texts)`. -/
def extract_pages_parallel (pages : List (Option String)) (order : List Nat) : String :=
  String.intercalate "\n" (pageWrites pages order (List.replicate pages.length ""))

/-- Strictly sequential per-page extraction: each page processed in page
order by `_extract_single_page`, results joined with `"\n"`. -/
def extract_pages_sequential (pages : List (Option String)) : String :=
  String.intercalate "\n" (pages.map extract_single_page)

theorem pageWrites_length (pages : List (Option String)) (order : List Nat)
    (buf : List String) : (pageWrites pages order buf).length = buf.length := by
  induction order generalizing buf with
  | nil => rfl
  | cons i rest ih =>
    simp only [pageWrites, List.foldl_cons] at *
    rw [ih]
    exact List.length_set ..

theorem pageWrites_getElem? (pages : List (Option String)) (order : List Nat)
    (buf : List String) (j : Nat) :
    (pageWrites pages order buf)[j]? =
      if j ∈ order ∧ j < buf.length then
        some (extract_single_page (pages.getD j none))
      else buf[j]? := by
  induction order generalizing buf with
  | nil => simp [pageWrites]
  | cons i rest ih =>
    simp only [pageWrites, List.foldl_cons] at *
    rw [ih, List.length_set, List.getElem?_set]
    simp only [List.mem_cons]
    by_cases hij : i = j
    · subst hij
      by_cases hl : i < buf.length
      · by_cases hr : i ∈ rest <;> simp [hr, hl]
      · have hnone : buf[i]? = none := List.getElem?_eq_none (by omega)
        by_cases hr : i ∈ rest <;> simp [hr, hl, hnone]
    · have hji : ¬ j = i := fun h => hij h.symm
      by_cases hr : j ∈ rest <;> by_cases hl : j < buf.length <;>
        simp [hr, hl, hij, hji]

/-- C1: for every N-page PDF with N ≥ 2 and every task-completion order
(hence every worker count and delay distribution), the parallel page
extraction equals the strictly sequential per-page extraction joined in
page order; moreover each page index is written exactly once into the
pre-sized results buffer, and its slot holds exactly that page's
extraction result. -/
theorem parallel_extraction_order_invariant
    (pages : List (Option String)) (order : List Nat)
    (_hn : 2 ≤ pages.length)
    (hperm : order.Perm (List.range pages.length)) :
    extract_pages_parallel pages order = extract_pages_sequential pages ∧
    (∀ i, i < pages.length → order.count i = 1) ∧
    (∀ i, i < pages.length →
      (pageWrites pages order (List.replicate pages.length ""))[i]? =
        some (extract_single_page (pages.getD i none))) := by
  have hmem : ∀ j : Nat, j ∈ order ↔ j < pages.length := by
    intro j
    rw [hperm.mem_iff, List.mem_range]
  have hbuf : ∀ i, i < pages.length →
      (pageWrites pages order (List.replicate pages.length ""))[i]? =
        some (extract_single_page (pages.getD i none)) := by
    intro i hi
    rw [pageWrites_getElem?]
    simp [List.length_replicate, (hmem i).mpr hi, hi]
  refine ⟨?_, ?_, hbuf⟩
  · unfold extract_pages_parallel extract_pages_sequential
    congr 1
    apply List.ext_getElem?
    intro j
    by_cases hj : j < pages.length
    · rw [hbuf j hj, List.getElem?_map]
      have : pages[j]? = some (pages.getD j none) := by
        rw [List.getD_eq_getElem?_getD]
        cases h : pages[j]? with
        | none => exact absurd (List.getElem?_eq_none_iff.mp h) (by omega)
        | some v => rfl
      rw [this]
      rfl
    · rw [pageWrites_getElem?]
      simp only [List.length_replicate]
      rw [if_neg (by omega)]
      rw [List.getElem?_replicate, if_neg hj, List.getElem?_map,
        List.getElem?_eq_none (by omega)]
      rfl
  · intro i hi
    rw [hperm.count_eq i, List.count_eq_one_of_mem (List.nodup_range _)
      (List.mem_range.mpr hi)]

/-- Witness for C1 at a concrete 3-page document whose tasks complete in
the order 2, 0, 1 (the second page's extraction raising). -/
theorem parallel_extraction_order_invariant_witness :
    (2 ≤ ([some "A", none, some "C"] : List (Option String)).length) ∧
    extract_pages_parallel [some "A", none, some "C"] [2, 0, 1] =
      extract_pages_sequential [some "A", none, some "C"] :=
  ⟨by decide,
   (parallel_extraction_order_invariant [some "A", none, some "C"] [2, 0, 1]
     (by decide) (by decide)).1⟩

/-! ## PDFTextExtractor._extract_text_with_ocr (text_extractor.py lines 98-144) -/

/-- Source `_extract_text_with_ocr`, result-collection loop (lines 121-141),
for a given task-completion order over the page images.  Each image is
modelled by the outcome of `_ocr_image`: `some t` when OCR returns text
`t`, `none` when the task raises (the `except` branch at lines 138-139
appends nothing).  The loop appends `page_text + "\n"` to `text` in the
order `as_completed` yields the futures, and the function returns
`text.strip()`. -/
def extract_text_with_ocr (pageTexts : List (Option String)) (order : List Nat) : String :=
  String.mk (pyStripL (order.foldl (fun acc i =>
    match pageTexts.getD i none with
    | some t => acc ++ t.data ++ ['\n']
    | none => acc) []))

/-- C2: the OCR stage concatenates the recognized page texts in
task-completion order (`text += page_text + "\n"` under `as_completed`),
not in page-number order: with two pages recognized as "FIRST PAGE" and
"SECOND PAGE" and the second page's task completing first, the result is
"SECOND PAGE\nFIRST PAGE", and the result differs between the two
completion orders. -/
theorem ocr_concatenation_follows_completion_order :
    extract_text_with_ocr [some "FIRST PAGE", some "SECOND PAGE"] [1, 0] =
      "SECOND PAGE\nFIRST PAGE" ∧
    extract_text_with_ocr [some "FIRST PAGE", some "SECOND PAGE"] [1, 0] ≠
      extract_text_with_ocr [some "FIRST PAGE", some "SECOND PAGE"] [0, 1] := by
  constructor
  · decide
  · decide

/-! ## PDFTextExtractor worker-pool sizing (text_extractor.py lines 18-21, 211-213) -/

/-- Source `PDFTextExtractor.__init__` (line 21):
`self.max_workers = min(max_workers or multiprocessing.cpu_count(), 8)`.
`max_workers or cpu_count()` is Python truthiness: the configured value is
used only when it is neither `None` nor `0`. -/
def init_max_workers (max_workers : Option Nat) (cpu_count : Nat) : Nat :=
  min (match max_workers with
       | some w => if w = 0 then cpu_count else w
       | none => cpu_count) 8

/-- Source `PDFTextExtractor.set_max_workers` (line 213):
`self.max_workers = min(max_workers, 8)`. -/
def set_max_workers (w : Nat) : Nat := min w 8

/-- C8 counterexample: with configured worker count 16 and
hardware-concurrency hint 4, the constructed pool size is 8, not
min(16, 4, 8) = 4 as the claim states. -/
theorem worker_pool_min_counterexample :
    init_max_workers (some 16) 4 = 8 ∧
    min 16 (min 4 8) = 4 ∧ (8 : Nat) ≠ 4 := by decide

/-- C8 (amended): the constructed pool size is at most 8 and equals
min(configured, 8) when a nonzero worker count is configured; the
hardware-concurrency hint enters only when the configured value is absent
or zero, as min(hint, 8).  Every `set_max_workers` reconfiguration leaves
the pool size at most 8. -/
theorem worker_pool_sizing (cfg : Option Nat) (cpu w : Nat) :
    init_max_workers cfg cpu ≤ 8 ∧
    (∀ v, cfg = some v → v ≠ 0 → init_max_workers cfg cpu = min v 8) ∧
    ((cfg = none ∨ cfg = some 0) → init_max_workers cfg cpu = min cpu 8) ∧
    set_max_workers w ≤ 8 := by
  refine ⟨Nat.min_le_right _ _, ?_, ?_, Nat.min_le_right _ _⟩
  · intro v hv hv0
    subst hv
    simp [init_max_workers, hv0]
  · intro h
    rcases h with h | h <;> subst h <;> simp [init_max_workers]

/-- Witness for C8 (amended) at configured count 5 and hint 3. -/
theorem worker_pool_sizing_witness :
    ((some 5 : Option Nat) = some 5) ∧ (5 : Nat) ≠ 0 ∧
    init_max_workers (some 5) 3 = min 5 8 :=
  ⟨rfl, by decide, (worker_pool_sizing (some 5) 3 0).2.1 5 rfl (by decide)⟩

/-! ## TextCleaner.clean_email_text (text_extractor.py lines 220-244) -/

/-- Index of the last `'\n'` in a list, if any. -/
def lastNlIdxAux : List Char → Nat → Option Nat → Option Nat
  | [], _, best => best
  | c :: cs, i, best => lastNlIdxAux cs (i + 1) (if c = '\n' then some i else best)

/-- Index of the last `'\n'` in a list, if any. -/
def lastNlIdx (l : List Char) : Option Nat := lastNlIdxAux l 0 none

/-- One attempted match of the pattern `\n\s*\n` at the head of `t`
(Python backtracking semantics: the greedy `\s*` makes the match end at
the last `'\n'` of the whitespace run that follows the leading `'\n'`).
Returns the remainder after the match. -/
def blankRunMatch (t : List Char) : Option (List Char) :=
  match t with
  | '\n' :: rest =>
    let run := rest.takeWhile pyIsSpace
    match lastNlIdx run with
    | some j => some (t.drop (j + 2))
    | none => none
  | _ => none

/-- Python `re.sub` for a matcher that consumes at least one character:
scan left to right, replace each leftmost non-overlapping match with
`repl`, and continue after it.  `fuel` bounds the recursion; it is called
with the input length, which suffices because every step consumes at
least one character. -/
def reSubAux (tryHere : List Char → Option (List Char)) (repl : List Char) :
    Nat → List Char → List Char
  | 0, t => t
  | fuel + 1, t =>
    match tryHere t with
    | some rest => repl ++ reSubAux tryHere repl fuel rest
    | none =>
      match t with
      | [] => []
      | c :: cs => c :: reSubAux tryHere repl fuel cs

/-- Source line 227: `text = re.sub(r"\n\s*\n", "\n\n", text)`. -/
def reSubBlank (t : List Char) : List Char :=
  reSubAux blankRunMatch ['\n', '\n'] t.length t

/-- The filter of source lines 236-241: keep a stripped line iff it is
nonempty, does not match `^\d+$`, does not start with `"Page "`, and has
length greater than 3. -/
def keepLine (l : List Char) : Bool :=
  (!l.isEmpty) && (!l.all Char.isDigit) && (!csLeads "Page ".data l) &&
    decide (3 < l.length)

/-- The `cleaned_lines` list of source lines 230-242: split the
blank-collapsed text into lines, strip each, and keep those passing the
filter. -/
def cleanLines (t : List Char) : List (List Char) :=
  ((splitNl (reSubBlank t)).map pyStripL).filter keepLine

/-- Source `TextCleaner.clean_email_text` (lines 224-244). -/
def clean_email_text (s : String) : String :=
  String.mk (joinNl (cleanLines s.data))

/-- C7 counterexample: a run of two blank lines between two content lines
is removed entirely by the normalizer — no single blank line survives, so
the output is not the blank-line-collapsed text the claim describes. -/
theorem normalizer_blank_collapse_counterexample :
    clean_email_text "Hello there friend\n\n\nGoodbye my friend!" =
      "Hello there friend\nGoodbye my friend!" ∧
    clean_email_text "Hello there friend\n\n\nGoodbye my friend!" ≠
      "Hello there friend\n\nGoodbye my friend!" := by
  constructor
  · decide
  · decide

/-- C7 (amended): every line retained by the normalizer is nonempty (so
blank-line runs are removed entirely, never collapsed to a surviving
blank line), is not a pure digit sequence, does not start with `"Page "`,
and has stripped length greater than 3; concretely, a lone "42" line, a
"Page 3" line and a 2-character line are dropped while a 10-character
content line is retained. -/
theorem normalizer_drops_noise_lines (s : String) :
    (∀ l, l ∈ cleanLines s.data →
      l.isEmpty = false ∧ l.all Char.isDigit = false ∧
      csLeads "Page ".data l = false ∧ 3 < l.length) ∧
    clean_email_text "Important note\n42\nPage 3\nab\nabcdefghij" =
      "Important note\nabcdefghij" := by
  constructor
  · intro l hl
    have h := (List.mem_filter.mp hl).2
    simp only [keepLine, Bool.and_eq_true, Bool.not_eq_true',
      decide_eq_true_eq] at h
    exact ⟨h.1.1.1, h.1.1.2, h.1.2, h.2⟩
  · decide

/-- Witness for C7 (amended) at a concrete input and retained line. -/
theorem normalizer_drops_noise_lines_witness :
    ("Hello there friend".data ∈ cleanLines ("Hello there friend\n\nab\n42".data)) ∧
    3 < "Hello there friend".data.length :=
  ⟨by decide,
   ((normalizer_drops_noise_lines "Hello there friend\n\nab\n42").1
     "Hello there friend".data (by decide)).2.2.2⟩

/-! ## EmailParser (email_parser.py)

The record built by `EmailParser.extract_email_info` (lines 12-41): a dict
with keys subject/from/to/date initialized to the sentinel "Not found" and
content initialized to the full input text. -/

structure EmailInfo where
  subject : String
  from_ : String
  to_ : String
  date : String
  content : String
deriving Repr, DecidableEq

/-- Python `line.split(":", 1)[1].strip()`: everything after the first
colon, stripped.  (Reached only for lines known to contain a colon.) -/
def afterColonStrip (l : List Char) : List Char :=
  pyStripL ((l.dropWhile (· ≠ ':')).drop 1)

/-- One iteration of the line loop in `extract_email_info` (lines 24-39):
the checks are substring tests against the lowercased line, in an
if/elif chain, each setting its field to the text after the line's first
colon. -/
def updateEmailInfo (info : EmailInfo) (line : List Char) : EmailInfo :=
  if ciContains "subject:".data line then
    { info with subject := String.mk (afterColonStrip line) }
  else if ciContains "from:".data line then
    { info with from_ := String.mk (afterColonStrip line) }
  else if ciContains "to:".data line then
    { info with to_ := String.mk (afterColonStrip line) }
  else if ciContains "date:".data line || ciContains "sent:".data line ||
      ciContains "received:".data line then
    { info with date := String.mk (afterColonStrip line) }
  else info

/-- Source `EmailParser.extract_email_info` (lines 12-41). -/
def extract_email_info (text : String) : EmailInfo :=
  (splitNl text.data).foldl updateEmailInfo
    { subject := "Not found", from_ := "Not found", to_ := "Not found",
      date := "Not found", content := text }

/-- Scan `t` left to right for the first position where `tryHere`
matches; returns (text before the match, matched text, text after).
`acc` holds the reversed scanned-past characters. -/
def scanMatch (tryHere : List Char → Option (List Char × List Char)) :
    List Char → List Char → Option (List Char × List Char × List Char)
  | acc, t =>
    match tryHere t with
    | some (m, rest) => some (acc.reverse, m, rest)
    | none =>
      match t with
      | [] => none
      | c :: cs => scanMatch tryHere (c :: acc) cs

/-- Python `re.split` for a matcher consuming at least one character:
pieces between leftmost non-overlapping matches.  `fuel` is called with
length + 1, which suffices because every match consumes a character. -/
def reSplitAux (tryHere : List Char → Option (List Char × List Char)) :
    Nat → List Char → List (List Char)
  | 0, t => [t]
  | fuel + 1, t =>
    match scanMatch tryHere [] t with
    | none => [t]
    | some (pre, _, rest) => pre :: reSplitAux tryHere fuel rest

/-- Python `re.split(pattern, t)` for the given single-position matcher. -/
def reSplit (tryHere : List Char → Option (List Char × List Char))
    (t : List Char) : List (List Char) :=
  reSplitAux tryHere (t.length + 1) t

/-- Python `re.search(pattern, t).group(0)`: the first matched text. -/
def searchFirst (tryHere : List Char → Option (List Char × List Char))
    (t : List Char) : Option (List Char) :=
  (scanMatch tryHere [] t).map (fun x => x.2.1)

/-- One attempted match of `From:.*?@.*` (IGNORECASE) at the head of `t`:
the literal `From:` followed by an `@` later on the same line; the greedy
`.*` extends the match to the end of the line. -/
def tryFromLine (t : List Char) : Option (List Char × List Char) :=
  if ciLeads "from:".data t then
    let line := (t.drop 5).takeWhile (· ≠ '\n')
    if line.contains '@' then
      some (t.take (5 + line.length), t.drop (5 + line.length))
    else none
  else none

/-- One attempted match of a literal pattern (IGNORECASE) at the head of
`t`. -/
def tryCiLit (pat : List Char) (t : List Char) : Option (List Char × List Char) :=
  if ciLeads pat t then some (t.take pat.length, t.drop pat.length) else none

/-- Last index `i` of `l` at which `pat` occurs case-insensitively. -/
def lastCiIdxAux (pat : List Char) : List Char → Nat → Option Nat → Option Nat
  | [], i, best => if ciLeads pat [] then some i else best
  | c :: ts, i, best =>
    lastCiIdxAux pat ts (i + 1) (if ciLeads pat (c :: ts) then some i else best)

/-- Last index of `l` at which `pat` occurs case-insensitively. -/
def lastCiIdx (pat l : List Char) : Option Nat := lastCiIdxAux pat l 0 none

/-- One attempted match of `On .* wrote:` (IGNORECASE) at the head of `t`:
the literal `On ` and, on the same line, a final ` wrote:`; the greedy
`.*` picks the last occurrence on the line. -/
def tryOnWrote (t : List Char) : Option (List Char × List Char) :=
  if ciLeads "on ".data t then
    let line := (t.drop 3).takeWhile (· ≠ '\n')
    match lastCiIdx " wrote:".data line with
    | some q => some (t.take (3 + q + 7), t.drop (3 + q + 7))
    | none => none
  else none

/-- The ordered separator list of `split_email_threads` (lines 46-52). -/
def sepMatchers : List (List Char → Option (List Char × List Char)) :=
  [tryFromLine,
   tryCiLit "-----Original Message-----".data,
   tryCiLit "________________________________".data,
   tryOnWrote,
   tryCiLit "Begin forwarded message:".data]

/-- The inner loop of `split_email_threads` (lines 61-69): keep the
nonempty-after-strip parts; every part after the first gets the first
match of the separator in the original text prepended (the code searches
`current_email`, not the part, so it is always the first match). -/
def threadsFromParts (sep : List Char → Option (List Char × List Char))
    (text : List Char) (parts : List (List Char)) : List EmailInfo :=
  parts.enum.filterMap fun p =>
    if (pyStripL p.2).isEmpty then none
    else
      let part := if 0 < p.1 then
          match searchFirst sep text with
          | some m => m ++ p.2
          | none => p.2
        else p.2
      some (extract_email_info (String.mk (pyStripL part)))

/-- The separator loop of `split_email_threads` (lines 58-70): the first
separator producing more than one part wins and the loop breaks. -/
def splitThreadsLoop (t : List Char) :
    List (List Char → Option (List Char × List Char)) → List EmailInfo
  | [] => []
  | sep :: rest =>
    let parts := reSplit sep t
    if 1 < parts.length then threadsFromParts sep t parts
    else splitThreadsLoop t rest

/-- Source `EmailParser.split_email_threads` (lines 43-76). -/
def split_email_threads (text : String) : List EmailInfo :=
  let emails := splitThreadsLoop text.data sepMatchers
  if emails.isEmpty then [extract_email_info text] else emails

/-- C4 counterexample: on the Scenario A text the pipeline (clean, then
split) produces two email records, not one — the `From:.*?@.*` separator
fires on the single message's own `From:` header line. -/
theorem scenario_a_record_count :
    (split_email_threads
      (clean_email_text "Subject: Hi\nFrom: a@x.com\nTo: b@x.com\nBody text")).length = 2 ∧
    (split_email_threads
      (clean_email_text "Subject: Hi\nFrom: a@x.com\nTo: b@x.com\nBody text")).length ≠ 1 := by
  constructor
  · decide
  · decide

/-- C4 (amended): on the Scenario A text the pipeline produces exactly two
records: the splitter cuts at the `From:` line, so the first record has
subject "Hi" with from/to left at "Not found", and the second has from
"a@x.com" and to "b@x.com" with subject left at "Not found". -/
theorem scenario_a_actual_records :
    split_email_threads
      (clean_email_text "Subject: Hi\nFrom: a@x.com\nTo: b@x.com\nBody text") =
      [{ subject := "Hi", from_ := "Not found", to_ := "Not found",
         date := "Not found", content := "Subject: Hi" },
       { subject := "Not found", from_ := "a@x.com", to_ := "b@x.com",
         date := "Not found",
         content := "From: a@x.com\nTo: b@x.com\nBody text" }] := by decide

theorem updateEmailInfo_content (info : EmailInfo) (line : List Char) :
    (updateEmailInfo info line).content = info.content := by
  unfold updateEmailInfo
  repeat' split
  all_goals rfl

theorem updateEmailInfo_subject (info : EmailInfo) (line : List Char)
    (h : ciContains "subject:".data line = false) :
    (updateEmailInfo info line).subject = info.subject := by
  unfold updateEmailInfo
  repeat' split
  all_goals simp_all

theorem updateEmailInfo_from (info : EmailInfo) (line : List Char)
    (h : ciContains "from:".data line = false) :
    (updateEmailInfo info line).from_ = info.from_ := by
  unfold updateEmailInfo
  repeat' split
  all_goals simp_all

theorem updateEmailInfo_to (info : EmailInfo) (line : List Char)
    (h : ciContains "to:".data line = false) :
    (updateEmailInfo info line).to_ = info.to_ := by
  unfold updateEmailInfo
  repeat' split
  all_goals simp_all

theorem updateEmailInfo_date (info : EmailInfo) (line : List Char)
    (h1 : ciContains "date:".data line = false)
    (h2 : ciContains "sent:".data line = false)
    (h3 : ciContains "received:".data line = false) :
    (updateEmailInfo info line).date = info.date := by
  unfold updateEmailInfo
  repeat' split
  all_goals simp_all

theorem foldl_updateEmailInfo_content (lines : List (List Char)) (init : EmailInfo) :
    (lines.foldl updateEmailInfo init).content = init.content := by
  induction lines generalizing init with
  | nil => rfl
  | cons l ls ih => rw [List.foldl_cons, ih, updateEmailInfo_content]

theorem foldl_updateEmailInfo_subject (lines : List (List Char)) (init : EmailInfo)
    (h : lines.all (fun l => !ciContains "subject:".data l)) :
    (lines.foldl updateEmailInfo init).subject = init.subject := by
  induction lines generalizing init with
  | nil => rfl
  | cons l ls ih =>
    rw [List.all_cons, Bool.and_eq_true] at h
    rw [List.foldl_cons, ih _ h.2,
      updateEmailInfo_subject _ _ (by simpa using h.1)]

theorem foldl_updateEmailInfo_from (lines : List (List Char)) (init : EmailInfo)
    (h : lines.all (fun l => !ciContains "from:".data l)) :
    (lines.foldl updateEmailInfo init).from_ = init.from_ := by
  induction lines generalizing init with
  | nil => rfl
  | cons l ls ih =>
    rw [List.all_cons, Bool.and_eq_true] at h
    rw [List.foldl_cons, ih _ h.2,
      updateEmailInfo_from _ _ (by simpa using h.1)]

theorem foldl_updateEmailInfo_to (lines : List (List Char)) (init : EmailInfo)
    (h : lines.all (fun l => !ciContains "to:".data l)) :
    (lines.foldl updateEmailInfo init).to_ = init.to_ := by
  induction lines generalizing init with
  | nil => rfl
  | cons l ls ih =>
    rw [List.all_cons, Bool.and_eq_true] at h
    rw [List.foldl_cons, ih _ h.2,
      updateEmailInfo_to _ _ (by simpa using h.1)]

theorem foldl_updateEmailInfo_date (lines : List (List Char)) (init : EmailInfo)
    (h : lines.all (fun l => !ciContains "date:".data l &&
      !ciContains "sent:".data l && !ciContains "received:".data l)) :
    (lines.foldl updateEmailInfo init).date = init.date := by
  induction lines generalizing init with
  | nil => rfl
  | cons l ls ih =>
    rw [List.all_cons, Bool.and_eq_true] at h
    have hl := h.1
    simp only [Bool.and_eq_true, Bool.not_eq_true'] at hl
    rw [List.foldl_cons, ih _ h.2,
      updateEmailInfo_date _ _ hl.1.1 hl.1.2 hl.2]

/-! ## Byte decoders

Models of Python `bytes.decode(encoding, errors="ignore")` for the four
candidate encodings tried by `NativeMsgParser` (utf-8, latin-1, cp1252,
utf-16).  Buffers are lists of byte values 0..255. -/

/-- Is `b` a UTF-8 continuation byte? -/
def isCont (b : Nat) : Bool := decide (0x80 ≤ b ∧ b ≤ 0xBF)

/-- Python `bytes.decode("utf-8", errors="ignore")`: well-formed sequences
decode (overlongs and surrogates rejected); an invalid sequence's maximal
valid subpart is skipped.  `fuel` only bounds the recursion: it starts at
the buffer length and every step consumes at least one byte, so the
zero-fuel case is never reached with bytes remaining. -/
def decodeUtf8Aux : Nat → List Nat → List Char
  | 0, _ => []
  | fuel + 1, bytes =>
    match bytes with
    | [] => []
    | b :: rest =>
    if b < 0x80 then Char.ofNat b :: decodeUtf8Aux fuel rest
    else if 0xC2 ≤ b ∧ b ≤ 0xDF then
      match rest with
      | c :: rest2 =>
        if isCont c then
          Char.ofNat ((b - 0xC0) * 0x40 + (c - 0x80)) :: decodeUtf8Aux fuel rest2
        else decodeUtf8Aux fuel rest
      | [] => []
    else if 0xE0 ≤ b ∧ b ≤ 0xEF then
      match rest with
      | c :: rest2 =>
        if (b = 0xE0 && decide (0xA0 ≤ c ∧ c ≤ 0xBF)) ||
            (b = 0xED && decide (0x80 ≤ c ∧ c ≤ 0x9F)) ||
            (b ≠ 0xE0 && b ≠ 0xED && isCont c) then
          match rest2 with
          | d :: rest3 =>
            if isCont d then
              Char.ofNat ((b - 0xE0) * 0x1000 + (c - 0x80) * 0x40 + (d - 0x80)) ::
                decodeUtf8Aux fuel rest3
            else decodeUtf8Aux fuel rest2
          | [] => []
        else decodeUtf8Aux fuel rest
      | [] => []
    else if 0xF0 ≤ b ∧ b ≤ 0xF4 then
      match rest with
      | c :: rest2 =>
        if (b = 0xF0 && decide (0x90 ≤ c ∧ c ≤ 0xBF)) ||
            (b = 0xF4 && decide (0x80 ≤ c ∧ c ≤ 0x8F)) ||
            (b ≠ 0xF0 && b ≠ 0xF4 && isCont c) then
          match rest2 with
          | d :: rest3 =>
            if isCont d then
              match rest3 with
              | e :: rest4 =>
                if isCont e then
                  Char.ofNat ((b - 0xF0) * 0x40000 + (c - 0x80) * 0x1000 +
                    (d - 0x80) * 0x40 + (e - 0x80)) :: decodeUtf8Aux fuel rest4
                else decodeUtf8Aux fuel rest3
              | [] => []
            else decodeUtf8Aux fuel rest2
          | [] => []
        else decodeUtf8Aux fuel rest
      | [] => []
    else decodeUtf8Aux fuel rest

/-- Python `bytes.decode("utf-8", errors="ignore")`. -/
def decodeUtf8Ignore (b : List Nat) : List Char := decodeUtf8Aux b.length b

/-- Python `bytes.decode("latin-1")`: total, each byte is its code point. -/
def decodeLatin1 (b : List Nat) : List Char := b.map Char.ofNat

/-- The cp1252 code-point table; `none` for the five unmapped bytes
(dropped under `errors="ignore"`). -/
def cp1252Map (b : Nat) : Option Nat :=
  if b < 0x80 ∨ 0xA0 ≤ b then some b
  else if b = 0x80 then some 0x20AC
  else if b = 0x82 then some 0x201A
  else if b = 0x83 then some 0x0192
  else if b = 0x84 then some 0x201E
  else if b = 0x85 then some 0x2026
  else if b = 0x86 then some 0x2020
  else if b = 0x87 then some 0x2021
  else if b = 0x88 then some 0x02C6
  else if b = 0x89 then some 0x2030
  else if b = 0x8A then some 0x0160
  else if b = 0x8B then some 0x2039
  else if b = 0x8C then some 0x0152
  else if b = 0x8E then some 0x017D
  else if b = 0x91 then some 0x2018
  else if b = 0x92 then some 0x2019
  else if b = 0x93 then some 0x201C
  else if b = 0x94 then some 0x201D
  else if b = 0x95 then some 0x2022
  else if b = 0x96 then some 0x2013
  else if b = 0x97 then some 0x2014
  else if b = 0x98 then some 0x02DC
  else if b = 0x99 then some 0x2122
  else if b = 0x9A then some 0x0161
  else if b = 0x9B then some 0x203A
  else if b = 0x9C then some 0x0153
  else if b = 0x9E then some 0x017E
  else if b = 0x9F then some 0x0178
  else none

/-- Python `bytes.decode("cp1252", errors="ignore")`. -/
def decodeCp1252Ignore (b : List Nat) : List Char :=
  b.filterMap (fun x => (cp1252Map x).map Char.ofNat)

/-- UTF-16 code-unit stream decoding with `errors="ignore"`: surrogate
pairs combine; lone surrogates and a trailing odd byte are dropped. -/
def decodeUtf16Aux (be : Bool) : Nat → List Nat → List Char
  | 0, _ => []
  | fuel + 1, bytes =>
    match bytes with
    | b0 :: b1 :: rest =>
      let u := if be then b0 * 256 + b1 else b0 + b1 * 256
      if 0xD800 ≤ u ∧ u ≤ 0xDBFF then
        match rest with
        | c0 :: c1 :: rest2 =>
          let v := if be then c0 * 256 + c1 else c0 + c1 * 256
          if 0xDC00 ≤ v ∧ v ≤ 0xDFFF then
            Char.ofNat (0x10000 + (u - 0xD800) * 0x400 + (v - 0xDC00)) ::
              decodeUtf16Aux be fuel rest2
          else decodeUtf16Aux be fuel rest
        | _ => []
      else if 0xDC00 ≤ u ∧ u ≤ 0xDFFF then decodeUtf16Aux be fuel rest
      else Char.ofNat u :: decodeUtf16Aux be fuel rest
    | _ => []

/-- UTF-16 code-unit stream decoding with `errors="ignore"`. -/
def decodeUtf16Pairs (be : Bool) (b : List Nat) : List Char :=
  decodeUtf16Aux be b.length b

/-- Python `bytes.decode("utf-16", errors="ignore")`: a leading BOM picks
the byte order, otherwise little-endian (CPython's native order here). -/
def decodeUtf16Ignore (b : List Nat) : List Char :=
  match b with
  | 0xFF :: 0xFE :: rest => decodeUtf16Pairs false rest
  | 0xFE :: 0xFF :: rest => decodeUtf16Pairs true rest
  | _ => decodeUtf16Pairs false b

/-- ASCII byte encoding of a string (for concrete byte-buffer inputs). -/
def strBytes (s : String) : List Nat := s.data.map Char.toNat

/-! ## NativeMsgParser._extract_text_patterns (native_msg_parser.py lines 130-212)

The regular-expression searches of this method are compiled by hand with
Python `re` backtracking semantics (leftmost match; greedy `\s*` tried
longest-first; lazy `.+?` tried shortest-first; `.` excludes `'\n'`
only). -/

/-- Scan the suffixes of `t` left to right; return the first value
produced by `f` (the leftmost match of an anchored matcher). -/
def scanOpt {α : Type} (f : List Char → Option α) : List Char → Option α
  | [] => f []
  | c :: cs =>
    match f (c :: cs) with
    | some r => some r
    | none => scanOpt f cs

/-- Is `c` a carriage return or newline? -/
def isCrOrLf (c : Char) : Bool := c == '\r' || c == '\n'

/-- Is `c` neither carriage return nor newline (the class `[^\r\n]`)? -/
def notCrLf (c : Char) : Bool := !(c == '\r' || c == '\n')

/-- For `Subject:\s*(.+?)[\r\n]` with `\s*` having consumed `k`
characters of `rest`: the lazy `.+?` needs a first character other than
`'\n'` and a later `[\r\n]`; the group ends at the first such
terminator. -/
def s1Try (rest : List Char) (k : Nat) : Option (List Char) :=
  match rest.drop k with
  | [] => none
  | c :: cs =>
    if c = '\n' then none
    else
      match cs.findIdx? isCrOrLf with
      | some j => some (c :: cs.take j)
      | none => none

/-- Backtracking over the greedy `\s*`: try `k` from the maximal
whitespace run length down to 0. -/
def s1Back (rest : List Char) : Nat → Option (List Char)
  | 0 => s1Try rest 0
  | k + 1 =>
    match s1Try rest (k + 1) with
    | some g => some g
    | none => s1Back rest k

/-- One attempted match of `Subject:\s*(.+?)[\r\n]` (IGNORECASE) at the
head of `t`; returns group 1. -/
def trySubject1 (t : List Char) : Option (List Char) :=
  if ciLeads "subject:".data t then
    let rest := t.drop 8
    s1Back rest (rest.takeWhile pyIsSpace).length
  else none

/-- For `Subject[:\s]+([^\r\n]+)` with `[:\s]+` having consumed `k ≥ 1`
characters: the greedy group takes everything up to the line end. -/
def s2Back (rest : List Char) : Nat → Option (List Char)
  | 0 => none
  | k + 1 =>
    match rest.drop (k + 1) with
    | c :: cs =>
      if notCrLf c then some (c :: cs.takeWhile notCrLf)
      else s2Back rest k
    | [] => s2Back rest k

/-- One attempted match of `Subject[:\s]+([^\r\n]+)` (IGNORECASE) at the
head of `t`; returns group 1. -/
def trySubject2 (t : List Char) : Option (List Char) :=
  if ciLeads "subject".data t then
    let rest := t.drop 7
    s2Back rest (rest.takeWhile (fun c => c == ':' || pyIsSpace c)).length
  else none

/-- For `Label:\s*([^\r\n]+)` with `\s*` having consumed `k` characters:
the group needs a first character other than `\r`/`\n` and then extends
greedily to the line end. -/
def hdrTryAt (rest : List Char) (k : Nat) : Option (List Char) :=
  match rest.drop k with
  | c :: cs => if notCrLf c then some (c :: cs.takeWhile notCrLf) else none
  | [] => none

/-- Backtracking over the greedy `\s*` of a `Label:\s*([^\r\n]+)`
pattern. -/
def hdrBack (rest : List Char) : Nat → Option (List Char)
  | 0 => hdrTryAt rest 0
  | k + 1 =>
    match hdrTryAt rest (k + 1) with
    | some g => some g
    | none => hdrBack rest k

/-- One attempted match of `Label\s*([^\r\n]+)` (IGNORECASE) at the head
of `t` for a literal label such as `From:`; returns group 1. -/
def tryHdrGroup (label : List Char) (t : List Char) : Option (List Char) :=
  if ciLeads label t then
    let rest := t.drop label.length
    hdrBack rest (rest.takeWhile pyIsSpace).length
  else none

/-- One attempted match of `<([^@]+@[^>]+)>` at the head of `t`; returns
group 1. -/
def tryAngleEmail (t : List Char) : Option (List Char) :=
  match t with
  | '<' :: rest =>
    let a := rest.takeWhile (· ≠ '@')
    if a.isEmpty then none
    else
      match rest.drop a.length with
      | '@' :: rest2 =>
        let b := rest2.takeWhile (· ≠ '>')
        if b.isEmpty then none
        else
          match rest2.drop b.length with
          | '>' :: _ => some (a ++ '@' :: b)
          | _ => none
      | _ => none
  | _ => none

/-- One attempted match of `Recipients?:\s*([^\r\n]+)` (IGNORECASE) at
the head of `t`: the greedy `s?` tries `Recipients:` before
`Recipient:`. -/
def tryRecipGroup (t : List Char) : Option (List Char) :=
  match tryHdrGroup "recipients:".data t with
  | some g => some g
  | none => tryHdrGroup "recipient:".data t

/-- Number of alphabetic characters in a line (Python
`len([c for c in line if c.isalpha()])`, ASCII letters). -/
def alphaCount (l : List Char) : Nat := (l.filter Char.isAlpha).length

/-- Membership in the character class `[A-F0-9\s]`. -/
def hexSpaceChar (c : Char) : Bool :=
  decide ('A' ≤ c ∧ c ≤ 'F') || decide ('0' ≤ c ∧ c ≤ '9') || pyIsSpace c

/-- The header-literal tuple of line 195-197 (`str.startswith`,
case-sensitive). -/
def msgHeaderStarts : List (List Char) :=
  ["From:".data, "To:".data, "Subject:".data, "Date:".data, "Message-ID:".data]

/-- The body-line filter of lines 190-201: length over 20, not a known
header line, not matching `^[A-F0-9\s]+$`, majority alphabetic
(`count > len * 0.5`, i.e. `2 * count > len`, exact for CPython's float
comparison at these magnitudes). -/
def bodyLikeLine (l : List Char) : Bool :=
  decide (20 < l.length) &&
  !(msgHeaderStarts.any (fun p => csLeads p l)) &&
  !((!l.isEmpty) && l.all hexSpaceChar) &&
  decide (l.length < 2 * alphaCount l)

/-- The decode at lines 135-140: utf-8 with errors ignored, falling back
to latin-1 when the result strips to empty. -/
def patternsDecode (b : List Nat) : List Char :=
  let t := decodeUtf8Ignore b
  if (pyStripL t).isEmpty then decodeLatin1 b else t

/-- The heuristic property dictionary of `_extract_text_patterns`:
`none` models an absent key. -/
structure MsgEmailData where
  subject : Option String := none
  sender_name : Option String := none
  sender_email : Option String := none
  display_to : Option String := none
  display_cc : Option String := none
  body : Option String := none
  html_body : Option String := none
  client_submit_time : Option String := none
deriving Repr, DecidableEq

/-- Python truthiness of a possibly-absent string value. -/
def truthy : Option String → Bool
  | some s => !s.isEmpty
  | none => false

/-- Python `any(email_data.values())` over the property dictionary. -/
def anyTruthy (d : MsgEmailData) : Bool :=
  truthy d.subject || truthy d.sender_name || truthy d.sender_email ||
  truthy d.display_to || truthy d.display_cc || truthy d.body ||
  truthy d.html_body || truthy d.client_submit_time

/-- Source `NativeMsgParser._extract_text_patterns` (lines 130-212). -/
def extract_text_patterns (b : List Nat) : MsgEmailData :=
  let tc := patternsDecode b
  let subj :=
    match scanOpt trySubject1 tc with
    | some g => some (String.mk (pyStripL g))
    | none => (scanOpt trySubject2 tc).map (fun g => String.mk (pyStripL g))
  let fromG :=
    match scanOpt (tryHdrGroup "from:".data) tc with
    | some g => some g
    | none =>
      match scanOpt (tryHdrGroup "sender:".data) tc with
      | some g => some g
      | none => scanOpt tryAngleEmail tc
  let semailSname : Option String × Option String :=
    match fromG with
    | some g =>
      let info := pyStripL g
      if info.contains '@' then (some (String.mk info), none)
      else (none, some (String.mk info))
    | none => (none, none)
  let toG :=
    match scanOpt (tryHdrGroup "to:".data) tc with
    | some g => some g
    | none => scanOpt tryRecipGroup tc
  let content_lines := (splitNl tc).filterMap (fun line =>
    let line := pyStripL line
    if bodyLikeLine line then some line else none)
  { subject := subj,
    sender_name := semailSname.2,
    sender_email := semailSname.1,
    display_to := toG.map (fun g => String.mk (pyStripL g)),
    body := if content_lines.isEmpty then none
      else some (String.mk (joinNl (content_lines.take 50))) }

/-! ## NativeMsgParser result structure and tiers (native_msg_parser.py lines 35-316)

The result dict of `_parse_msg_stream`/`_fallback_text_extraction`,
restricted to the fields the specification's claims mention.  `file_path`
and the best-effort attachment fields (`attachments`,
`attachment_contents`, computed by `_detect_attachments`, which is
wrapped in a `try` and cannot fail or change any other field) are not
modelled.  `sender_name` is present only in the Tier-2 success record and
`parsing_method` only in the fallback record, hence `Option`. -/

structure MsgRecord where
  format : String
  subject : String
  from_ : String
  sender : String
  sender_name : Option String
  to_ : String
  recipient : String
  cc : String
  date : String
  content : String
  parsing_method : Option String
deriving Repr, DecidableEq

/-- A parse result: the error dict `{"error": msg}` or a record dict. -/
inductive MsgResult where
  | error (msg : String)
  | record (r : MsgRecord)
deriving Repr, DecidableEq

/-- Is the result the error dict (`"error" in result`)? -/
def MsgResult.isError : MsgResult → Bool
  | .error _ => true
  | .record _ => false

/-- The `format` value of a record result. -/
def MsgResult.formatOf : MsgResult → Option String
  | .error _ => none
  | .record r => some r.format

/-- The `parsing_method` value of a record result. -/
def MsgResult.methodOf : MsgResult → Option String
  | .error _ => none
  | .record r => r.parsing_method

/-- The `from` value of a record result. -/
def MsgResult.fromOf : MsgResult → Option String
  | .error _ => none
  | .record r => some r.from_

/-- The `sender` value of a record result. -/
def MsgResult.senderOf : MsgResult → Option String
  | .error _ => none
  | .record r => some r.sender

/-- The `subject` value of a record result. -/
def MsgResult.subjectOf : MsgResult → Option String
  | .error _ => none
  | .record r => some r.subject

/-- The `to` value of a record result. -/
def MsgResult.toOf : MsgResult → Option String
  | .error _ => none
  | .record r => some r.to_

/-- The `recipient` value of a record result. -/
def MsgResult.recipientOf : MsgResult → Option String
  | .error _ => none
  | .record r => some r.recipient

/-- The `cc` value of a record result. -/
def MsgResult.ccOf : MsgResult → Option String
  | .error _ => none
  | .record r => some r.cc

/-- The `date` value of a record result. -/
def MsgResult.dateOf : MsgResult → Option String
  | .error _ => none
  | .record r => some r.date

/-- Python `re.sub(r"<[^>]+>", "", html)`: one attempted tag match at the
head, returning the remainder after the closing `>`. -/
def tryTag (t : List Char) : Option (List Char) :=
  match t with
  | '<' :: rest =>
    let a := rest.takeWhile (· ≠ '>')
    if a.isEmpty then none
    else
      match rest.drop a.length with
      | '>' :: rest2 => some rest2
      | _ => none
  | _ => none

/-- Python `str.replace(needle, repl)`: non-overlapping left-to-right
replacement; `fuel` starts at the input length, and every step consumes
at least one character. -/
def replaceStrAux (needle repl : List Char) : Nat → List Char → List Char
  | 0, t => t
  | fuel + 1, t =>
    if csLeads needle t then repl ++ replaceStrAux needle repl fuel (t.drop needle.length)
    else
      match t with
      | [] => []
      | c :: cs => c :: replaceStrAux needle repl fuel cs

/-- Python `t.replace(needle, repl)`. -/
def pyReplace (t needle repl : List Char) : List Char :=
  replaceStrAux needle repl t.length t

/-- Python `re.sub(r"\s+", " ", ...)`: one attempted whitespace-run match
at the head. -/
def tryWsRun (t : List Char) : Option (List Char) :=
  match t with
  | c :: cs => if pyIsSpace c then some (cs.dropWhile pyIsSpace) else none
  | [] => none

/-- Source `NativeMsgParser._html_to_text` (lines 224-248): strip tags,
decode the six entities in dict order, collapse whitespace, strip. -/
def html_to_text (h : String) : String :=
  let t := reSubAux tryTag [] h.data.length h.data
  let t := pyReplace t "&amp;".data "&".data
  let t := pyReplace t "&lt;".data "<".data
  let t := pyReplace t "&gt;".data ">".data
  let t := pyReplace t "&quot;".data "\"".data
  let t := pyReplace t "&#39;".data "'".data
  let t := pyReplace t "&nbsp;".data " ".data
  let t := reSubAux tryWsRun [' '] t.length t
  String.mk (pyStripL t)

/-- Source `NativeMsgParser._get_best_content` (lines 214-222). -/
def get_best_content (d : MsgEmailData) : String :=
  if truthy d.html_body then html_to_text (d.html_body.getD "")
  else if truthy d.body then d.body.getD ""
  else ""

/-- The MSG magic signature (line 16). -/
def msgSignature : List Nat := [0xD0, 0xCF, 0x11, 0xE0, 0xA1, 0xB1, 0x1A, 0xE1]

/-- Source `NativeMsgParser._parse_compound_document` (lines 103-128):
reads a 512-byte header (shorter input yields the empty dict) and then
runs `_extract_text_patterns` on the whole buffer. -/
def parse_compound_document (b : List Nat) : MsgEmailData :=
  if b.length < 512 then {} else extract_text_patterns b

/-- The encoding loop of `_fallback_text_extraction` (lines 257-264):
first of utf-8, latin-1, cp1252, utf-16 whose errors-ignored decode does
not strip to empty; if all do, the loop leaves the last (utf-16)
result. -/
def decodeChain (b : List Nat) : List Char :=
  let t1 := decodeUtf8Ignore b
  if !(pyStripL t1).isEmpty then t1
  else
    let t2 := decodeLatin1 b
    if !(pyStripL t2).isEmpty then t2
    else
      let t3 := decodeCp1252Ignore b
      if !(pyStripL t3).isEmpty then t3
      else decodeUtf16Ignore b

/-- The readable-line filter of lines 278-286: stripped length over 10
and alphabetic count over 0.3 of the length (`10 * count > 3 * len`,
exact for CPython's float comparison at these magnitudes). -/
def readableLine (l : List Char) : Bool :=
  decide (10 < l.length) && decide (3 * l.length < 10 * alphaCount l)

/-- The first ten readable lines of lines 274-286 (the loop breaks after
collecting ten). -/
def readableLines (tc : List Char) : List (List Char) :=
  (((splitNl tc).map pyStripL).filter readableLine).take 10

/-- The basic-info augmentation of lines 272-294: when neither subject
nor body was found, seed them from the readable lines (subject is the
first readable line truncated to 100 characters). -/
def fallbackAugment (tc : List Char) (d : MsgEmailData) : MsgEmailData :=
  if truthy d.subject || truthy d.body then d
  else
    let rl := readableLines tc
    if rl.isEmpty then d
    else { d with subject := some (String.mk ((rl.headD []).take 100)),
                  body := some (String.mk (joinNl rl)) }

/-- Source `NativeMsgParser._fallback_text_extraction` (lines 250-316)
at the byte-buffer level (both `open` calls of the method read the same
file, modelled by one buffer; a raising read is handled at
`parse_msg_file`). -/
def fallback_text_extraction (b : List Nat) : MsgResult :=
  let text_content := decodeChain b
  if (pyStripL text_content).isEmpty then
    .error "Could not extract readable text from MSG file"
  else
    let d := fallbackAugment text_content (extract_text_patterns b)
    .record
      { format := "msg",
        subject := d.subject.getD "MSG File",
        from_ := d.sender_email.getD "Unknown",
        sender := d.sender_email.getD "Unknown",
        sender_name := none,
        to_ := d.display_to.getD "",
        recipient := d.display_to.getD "",
        cc := d.display_cc.getD "",
        date := d.client_submit_time.getD "",
        content := d.body.getD (String.mk (text_content.take 1000)),
        parsing_method := some "fallback_text_extraction" }

/-- The Tier-2 success record of `_parse_msg_stream` (lines 82-97),
built from the property dict with empty-string defaults. -/
def successRecord (d : MsgEmailData) : MsgRecord :=
  { format := "msg",
    subject := d.subject.getD "",
    from_ := d.sender_email.getD "",
    sender := d.sender_email.getD "",
    sender_name := some (d.sender_name.getD ""),
    to_ := d.display_to.getD "",
    recipient := d.display_to.getD "",
    cc := d.display_cc.getD "",
    date := d.client_submit_time.getD "",
    content := get_best_content d,
    parsing_method := none }

/-- Source `NativeMsgParser._parse_msg_stream` (lines 53-101),
instrumented with whether Tier 2 (`_parse_compound_document`) and Tier 3
(`_fallback_text_extraction`) execute.  The source tests
`signature != self.MSG_SIGNATURE` on the first 8 bytes; the branches are
stated positively here.  The `except` around Tier 2 also routes to
Tier 3; the embedded Tier 2 is total, so that arm is represented by the
property-dict emptiness test of line 68. -/
def parse_msg_stream_instr (b : List Nat) : MsgResult × Bool × Bool :=
  if b.take 8 = msgSignature then
    let d := parse_compound_document b
    if anyTruthy d then (.record (successRecord d), true, false)
    else (fallback_text_extraction b, true, true)
  else (fallback_text_extraction b, false, true)

/-- The result of `_parse_msg_stream`. -/
def parse_msg_stream (b : List Nat) : MsgResult := (parse_msg_stream_instr b).1

/-- Did Tier 2 (structured property mapping) execute on `b`? -/
def tier2Ran (b : List Nat) : Bool := (parse_msg_stream_instr b).2.1

/-- Did Tier 3 (raw-byte heuristic fallback) execute on `b`? -/
def tier3Ran (b : List Nat) : Bool := (parse_msg_stream_instr b).2.2

/-- Source `NativeMsgParser.parse_msg_file` (lines 35-51): `none` models
the two top-level read failures (missing file at line 44, raising `open`
at line 50), each of which returns exactly one error dict. -/
def parse_msg_file (file : Option (List Nat)) : MsgResult :=
  match file with
  | none => .error "Failed to parse MSG file"
  | some b => parse_msg_stream b

theorem fallback_isError (b : List Nat) :
    (fallback_text_extraction b).isError = (pyStripL (decodeChain b)).isEmpty := by
  unfold fallback_text_extraction
  by_cases h : (pyStripL (decodeChain b)).isEmpty <;> simp [h, MsgResult.isError]

/-- C3 counterexample: the empty buffer fails the signature check, yet the
parser returns the error dict, not a record with format "msg" and parsing
method "fallback_text_extraction". -/
theorem msg_mismatch_error_counterexample :
    ([] : List Nat).take 8 ≠ msgSignature ∧
    parse_msg_stream [] =
      MsgResult.error "Could not extract readable text from MSG file" ∧
    (parse_msg_stream []).formatOf ≠ some "msg" := by
  refine ⟨by decide, by decide, by decide⟩

/-- C3 (amended): on a signature mismatch Tier 2 never executes and the
parser returns the Tier-3 fallback result, which has format "msg" and
parsing method "fallback_text_extraction" whenever some candidate
encoding yields non-whitespace text, and is the error dict otherwise
(e.g. for the empty buffer); and on a signature match with zero
non-empty Tier-2 property values, Tier 3 executes. -/
theorem msg_tier_skipping (b : List Nat) :
    (b.take 8 ≠ msgSignature →
      tier2Ran b = false ∧
      parse_msg_stream b = fallback_text_extraction b ∧
      ((fallback_text_extraction b).isError = true ∨
        ((fallback_text_extraction b).formatOf = some "msg" ∧
         (fallback_text_extraction b).methodOf = some "fallback_text_extraction"))) ∧
    (b.take 8 = msgSignature → anyTruthy (parse_compound_document b) = false →
      tier3Ran b = true ∧ parse_msg_stream b = fallback_text_extraction b) := by
  constructor
  · intro h
    refine ⟨?_, ?_, ?_⟩
    · simp [tier2Ran, parse_msg_stream_instr, h]
    · simp [parse_msg_stream, parse_msg_stream_instr, h]
    · by_cases hc : (pyStripL (decodeChain b)).isEmpty
      · left
        rw [fallback_isError, hc]
      · right
        constructor
        · simp [fallback_text_extraction, hc, MsgResult.formatOf]
        · simp [fallback_text_extraction, hc, MsgResult.methodOf]
  · intro h1 h2
    constructor
    · simp [tier3Ran, parse_msg_stream_instr, h1, h2]
    · simp [parse_msg_stream, parse_msg_stream_instr, h1, h2]

/-- Witness for C3 (amended): a concrete non-signature buffer skips
Tier 2; the 8-byte signature alone (shorter than a compound-document
header, so Tier 2 finds nothing) reaches Tier 3. -/
theorem msg_tier_skipping_witness :
    ((strBytes "Subject: Hello there message").take 8 ≠ msgSignature) ∧
    tier2Ran (strBytes "Subject: Hello there message") = false ∧
    (msgSignature.take 8 = msgSignature) ∧
    anyTruthy (parse_compound_document msgSignature) = false ∧
    tier3Ran msgSignature = true :=
  ⟨by decide,
   ((msg_tier_skipping (strBytes "Subject: Hello there message")).1 (by decide)).1,
   by decide, by decide,
   ((msg_tier_skipping msgSignature).2 (by decide) (by decide)).1⟩

/-- C6 counterexample: the empty buffer is read successfully (`some`),
yet the parser produces an error record — so error records are not
limited to top-level read failures. -/
theorem msg_error_despite_successful_read :
    parse_msg_file (some []) =
      MsgResult.error "Could not extract readable text from MSG file" ∧
    (some ([] : List Nat)) ≠ (none : Option (List Nat)) := by
  refine ⟨by decide, by decide⟩

/-- C6 (amended): every tier is total (no uncaught fault) and the parser
always returns exactly one result dict; that result is an error record
exactly when the top-level read fails, or when Tier 3 runs (signature
mismatch, or no non-empty Tier-2 property) and no candidate encoding
yields non-whitespace text. -/
theorem msg_error_record_characterization (file : Option (List Nat)) :
    (parse_msg_file file).isError =
      (match file with
       | none => true
       | some b =>
         (decide (b.take 8 ≠ msgSignature) ||
           !anyTruthy (parse_compound_document b)) &&
         (pyStripL (decodeChain b)).isEmpty) := by
  cases file with
  | none => rfl
  | some b =>
    show (parse_msg_stream b).isError = _
    unfold parse_msg_stream parse_msg_stream_instr
    by_cases h : b.take 8 = msgSignature
    · by_cases h2 : anyTruthy (parse_compound_document b)
      · simp [h, h2, MsgResult.isError]
      · simp [h, h2, fallback_isError]
    · simp [h, fallback_isError]

/-! ## EmailFileProcessor._extract_text_from_attachment, `.pdf` branch
(email_file_processor.py lines 306-342) -/

/-- Outcome of extracting text from an embedded PDF attachment: the value
the function returns and whether the scoped temporary file was deleted
before returning. -/
structure AttachOutcome where
  returned : String
  tempDeleted : Bool
deriving Repr, DecidableEq

/-- Source lines 320-334 together with the method's outer `try/except`
(lines 312, 341-342).  `tempfile.NamedTemporaryFile(suffix=".pdf",
delete=False)` creates the scoped temporary file; `write` models
`tmp.write(data)` inside the `with` block; `nested` models the recursive
`extractor.extract_text_from_pdf(tmp_path)` inside the `try` whose
`finally` runs `os.unlink(tmp_path)`.  A raising `write` propagates out
of the `with` block before the `try/finally` is entered, so `os.unlink`
never runs on that path and the outer `except` returns the bracketed
error string with the file still on disk. -/
def extract_pdf_attachment_text (filename : String)
    (write : Except String Unit) (nested : Except String String) : AttachOutcome :=
  match write with
  | .error e =>
    { returned := "[Error extracting text from " ++ filename ++ ": " ++ e ++ "]",
      tempDeleted := false }
  | .ok _ =>
    match nested with
    | .ok text => { returned := text, tempDeleted := true }
    | .error e =>
      { returned := "[Error extracting text from " ++ filename ++ ": " ++ e ++ "]",
        tempDeleted := true }

/-- C9 counterexample: when writing the attachment bytes raises (e.g. a
full disk), the function returns via its outer `except` with the scoped
temporary file not deleted — an exit path that leaks the file. -/
theorem temp_file_leak_on_write_failure :
    (extract_pdf_attachment_text "report.pdf"
      (Except.error "No space left on device") (Except.ok "")).tempDeleted = false := by
  decide

/-- C9 (amended): once the attachment bytes are written, the scoped
temporary file is deleted on every exit path — whether the nested PDF
extraction returns or raises — before control returns to the caller. -/
theorem temp_file_deleted_after_write (filename : String)
    (nested : Except String String) :
    (extract_pdf_attachment_text filename (Except.ok ()) nested).tempDeleted = true := by
  cases nested <;> rfl

/-! ## EmailFileProcessor.extract_emails_from_file (lines 406-438)

The `process_email_file` result is modelled at the dict level: an error
dict, or a field dict with `none` for absent keys and the ordered
`attachment_contents` mapping. -/

structure ProcessOk where
  subject : Option String := none
  sender : Option String := none
  from_ : Option String := none
  recipient : Option String := none
  to_ : Option String := none
  date : Option String := none
  content : Option String := none
  message_id : Option String := none
  attachment_contents : List (String × String) := []
deriving Repr, DecidableEq, Inhabited

/-- Result of `process_email_file`. -/
inductive ProcessResult where
  | error (msg : String)
  | ok (d : ProcessOk)
deriving Repr, DecidableEq

/-- The standardized `email_entry` dict of lines 418-427. -/
structure EmailEntry where
  subject : String
  sender : String
  from_ : String
  recipient : String
  to_ : String
  date : String
  content : String
  message_id : String
deriving Repr, DecidableEq, Inhabited

/-- Lines 418-427: field defaults via `result.get(..., "")`, with
`sender`/`recipient` falling back to `from`/`to`. -/
def mkEmailEntry (d : ProcessOk) : EmailEntry :=
  { subject := d.subject.getD "",
    sender := d.sender.getD (d.from_.getD ""),
    from_ := d.from_.getD "",
    recipient := d.recipient.getD (d.to_.getD ""),
    to_ := d.to_.getD "",
    date := d.date.getD "",
    content := d.content.getD "",
    message_id := d.message_id.getD "" }

/-- Lines 430-433: the rendered attachment blocks for non-empty
attachment texts. -/
def attachmentTexts (d : ProcessOk) : List String :=
  d.attachment_contents.filterMap fun fc =>
    if fc.2.isEmpty then none
    else some ("\n--- Attachment: " ++ fc.1 ++ " ---\n" ++ fc.2)

/-- Source `EmailFileProcessor.extract_emails_from_file` (lines 406-438). -/
def extract_emails_from_file (r : ProcessResult) : List EmailEntry :=
  match r with
  | .error _ => []
  | .ok d =>
    let entry := mkEmailEntry d
    let entry := if (attachmentTexts d).isEmpty then entry
      else { entry with content :=
        entry.content ++ "\n\n" ++ String.intercalate "\n" (attachmentTexts d) }
    [entry]

/-- C10: `extract_emails_from_file` returns the empty list exactly for an
error result and otherwise exactly one record, whose content is the
record's own content followed by the rendered attachment texts (appended
to that single record, never emitted as separate records). -/
theorem extract_emails_single_record :
    (∀ m, extract_emails_from_file (ProcessResult.error m) = []) ∧
    (∀ d, (extract_emails_from_file (ProcessResult.ok d)).length = 1) ∧
    (∀ d, ((extract_emails_from_file (ProcessResult.ok d)).headD default).content =
      (mkEmailEntry d).content ++
        (if (attachmentTexts d).isEmpty then ""
         else "\n\n" ++ String.intercalate "\n" (attachmentTexts d))) := by
  refine ⟨fun m => rfl, fun d => rfl, fun d => ?_⟩
  unfold extract_emails_from_file
  by_cases h : (attachmentTexts d).isEmpty <;> simp [h, String.append_assoc]

theorem fallbackAugment_preserves (tc : List Char) (d : MsgEmailData) :
    (fallbackAugment tc d).sender_email = d.sender_email ∧
    (fallbackAugment tc d).display_to = d.display_to ∧
    (fallbackAugment tc d).display_cc = d.display_cc ∧
    (fallbackAugment tc d).client_submit_time = d.client_submit_time := by
  unfold fallbackAugment
  by_cases h : (truthy d.subject || truthy d.body) = true
  · simp [h]
  · by_cases h2 : (readableLines tc).isEmpty = true <;> simp [h, h2]

theorem extract_text_patterns_display_cc (b : List Nat) :
    (extract_text_patterns b).display_cc = none := rfl

theorem extract_text_patterns_submit_time (b : List Nat) :
    (extract_text_patterns b).client_submit_time = none := rfl

/-- C5 counterexample: a readable signature-less buffer with no sender
information yields a record whose `from` field is the sentinel
"Unknown", not "Not found" — the "Not found" sentinel is not universal
across parsers. -/
theorem msg_fallback_sentinel_counterexample :
    (fallback_text_extraction
      (strBytes "An example message body with readable text content")).fromOf =
      some "Unknown" ∧
    (some "Unknown" : Option String) ≠ some "Not found" := by
  refine ⟨by decide, by decide⟩

/-- C5 (amended): missing header fields default to parser-specific
sentinels, and content is never null.  The PDF text path
(`extract_email_info`) keeps "Not found" for each of subject, from, to
and date when no line provides the label, and always carries the full
text as content.  The MSG fallback path (unless it degrades to the error
dict) defaults `from`/`sender` to "Unknown" when no sender e-mail was
extracted, defaults `subject` to "MSG File" when the property dict ends
up without a subject, defaults `to`/`recipient` to the empty string when
no recipient was extracted, and always has empty-string `cc` and `date`
(never extracted by the heuristics).  The standardized
`extract_emails_from_file` entry defaults every absent field — subject,
sender, from, recipient, to, date, message_id — to the empty string, and
content to the empty string when the processor result carries none. -/
theorem missing_field_defaults (text : String) (b : List Nat) (d : ProcessOk) :
    ((extract_email_info text).content = text ∧
     ((splitNl text.data).all (fun l => !ciContains "subject:".data l) →
       (extract_email_info text).subject = "Not found") ∧
     ((splitNl text.data).all (fun l => !ciContains "from:".data l) →
       (extract_email_info text).from_ = "Not found") ∧
     ((splitNl text.data).all (fun l => !ciContains "to:".data l) →
       (extract_email_info text).to_ = "Not found") ∧
     ((splitNl text.data).all (fun l => !ciContains "date:".data l &&
         !ciContains "sent:".data l && !ciContains "received:".data l) →
       (extract_email_info text).date = "Not found")) ∧
    (((extract_text_patterns b).sender_email = none →
       (fallback_text_extraction b).isError = true ∨
       ((fallback_text_extraction b).fromOf = some "Unknown" ∧
        (fallback_text_extraction b).senderOf = some "Unknown")) ∧
     ((fallbackAugment (decodeChain b) (extract_text_patterns b)).subject = none →
       (fallback_text_extraction b).isError = true ∨
       (fallback_text_extraction b).subjectOf = some "MSG File") ∧
     ((extract_text_patterns b).display_to = none →
       (fallback_text_extraction b).isError = true ∨
       ((fallback_text_extraction b).toOf = some "" ∧
        (fallback_text_extraction b).recipientOf = some "")) ∧
     ((fallback_text_extraction b).isError = true ∨
       ((fallback_text_extraction b).ccOf = some "" ∧
        (fallback_text_extraction b).dateOf = some ""))) ∧
    ((((extract_emails_from_file (ProcessResult.ok d)).headD default).subject =
        d.subject.getD "" ∧
      ((extract_emails_from_file (ProcessResult.ok d)).headD default).sender =
        d.sender.getD (d.from_.getD "") ∧
      ((extract_emails_from_file (ProcessResult.ok d)).headD default).from_ =
        d.from_.getD "" ∧
      ((extract_emails_from_file (ProcessResult.ok d)).headD default).recipient =
        d.recipient.getD (d.to_.getD "") ∧
      ((extract_emails_from_file (ProcessResult.ok d)).headD default).to_ =
        d.to_.getD "" ∧
      ((extract_emails_from_file (ProcessResult.ok d)).headD default).date =
        d.date.getD "" ∧
      ((extract_emails_from_file (ProcessResult.ok d)).headD default).message_id =
        d.message_id.getD "") ∧
     (d.content = none → d.attachment_contents = [] →
       ((extract_emails_from_file (ProcessResult.ok d)).headD default).content = "")) := by
  refine ⟨⟨?_, ?_, ?_, ?_, ?_⟩, ⟨?_, ?_, ?_, ?_⟩, ⟨?_, ?_⟩⟩
  · exact foldl_updateEmailInfo_content ..
  · exact fun h => foldl_updateEmailInfo_subject _ _ h
  · exact fun h => foldl_updateEmailInfo_from _ _ h
  · exact fun h => foldl_updateEmailInfo_to _ _ h
  · exact fun h => foldl_updateEmailInfo_date _ _ h
  · intro h
    by_cases hc : (pyStripL (decodeChain b)).isEmpty
    · left
      rw [fallback_isError, hc]
    · right
      have hp := fallbackAugment_preserves (decodeChain b) (extract_text_patterns b)
      unfold fallback_text_extraction
      simp [hc, MsgResult.fromOf, MsgResult.senderOf, hp.1, h]
  · intro h
    by_cases hc : (pyStripL (decodeChain b)).isEmpty
    · left
      rw [fallback_isError, hc]
    · right
      unfold fallback_text_extraction
      simp [hc, MsgResult.subjectOf, h]
  · intro h
    by_cases hc : (pyStripL (decodeChain b)).isEmpty
    · left
      rw [fallback_isError, hc]
    · right
      have hp := fallbackAugment_preserves (decodeChain b) (extract_text_patterns b)
      unfold fallback_text_extraction
      simp [hc, MsgResult.toOf, MsgResult.recipientOf, hp.2.1, h]
  · by_cases hc : (pyStripL (decodeChain b)).isEmpty
    · left
      rw [fallback_isError, hc]
    · right
      have hp := fallbackAugment_preserves (decodeChain b) (extract_text_patterns b)
      unfold fallback_text_extraction
      simp [hc, MsgResult.ccOf, MsgResult.dateOf, hp.2.2.1, hp.2.2.2,
        extract_text_patterns_display_cc, extract_text_patterns_submit_time]
  · by_cases h : (attachmentTexts d).isEmpty <;>
      simp [extract_emails_from_file, h, mkEmailEntry]
  · intro h1 h2
    simp [extract_emails_from_file, attachmentTexts, h2, mkEmailEntry, h1]

/-- Witness for C5 (amended) at concrete inputs: a label-free text keeps
all four "Not found" sentinels, and a concrete buffer without sender,
subject or recipient information hits the "Unknown"/"MSG File"/empty
defaults of the fallback record. -/
theorem missing_field_defaults_witness :
    ((splitNl ("plain body line" : String).data).all
      (fun l => !ciContains "subject:".data l) = true) ∧
    (extract_email_info "plain body line").subject = "Not found" ∧
    (extract_email_info "plain body line").from_ = "Not found" ∧
    (extract_email_info "plain body line").to_ = "Not found" ∧
    (extract_email_info "plain body line").date = "Not found" ∧
    ((extract_text_patterns (strBytes "No address line here at all")).sender_email =
      none) ∧
    ((fallback_text_extraction (strBytes "No address line here at all")).isError =
        true ∨
      ((fallback_text_extraction (strBytes "No address line here at all")).fromOf =
        some "Unknown" ∧
       (fallback_text_extraction (strBytes "No address line here at all")).senderOf =
        some "Unknown")) ∧
    ((fallback_text_extraction (strBytes "No address line here at all")).isError =
        true ∨
      (fallback_text_extraction (strBytes "No address line here at all")).subjectOf =
        some "MSG File") ∧
    ((fallback_text_extraction (strBytes "No address line here at all")).isError =
        true ∨
      ((fallback_text_extraction (strBytes "No address line here at all")).toOf =
        some "" ∧
       (fallback_text_extraction (strBytes "No address line here at all")).recipientOf =
        some "")) ∧
    (((extract_emails_from_file (ProcessResult.ok {})).headD default).content = "") := by
  have h := missing_field_defaults "plain body line"
    (strBytes "No address line here at all") {}
  exact ⟨by decide, h.1.2.1 (by decide), h.1.2.2.1 (by decide),
    h.1.2.2.2.1 (by decide), h.1.2.2.2.2 (by decide), by decide,
    h.2.1.1 (by decide), h.2.1.2.1 (by decide), h.2.1.2.2.1 (by decide),
    h.2.2.2 rfl rfl⟩

end EmailSummarizer
